import Mathlib

/-!
Verification of the instruction-to-SVG rendering engine of the
knittingpattern repository (module knittingpattern/convert/InstructionToSVG.py).

The engine keeps a registry mapping instruction-type names to raw SVG template
strings, renders an instruction by parsing the registered template with
xmltodict and recoloring the layer labeled "color", and falls back to a
"default" template (with a literal placeholder substitution) or to an empty
svg dictionary.

Strings are modelled as lists of characters (`Str`), so that Python string
operations (split, join, startswith, replace) can be given by structural
recursion.  The xmltodict parse result is modelled by the inductive type
`XVal`: Python dictionaries become ordered association lists, Python lists
become `XVal.list`, strings become `XVal.str` and `None` becomes `XVal.null`.
The external xmltodict parser itself is an uninterpreted function
`parse : Str → XVal` supplied as a parameter.  Python exceptions
(KeyError, TypeError, AttributeError) are modelled with `Except PyErr`.
-/

/-- Strings are lists of characters, to mirror Python string operations. -/
abbrev Str := List Char

/-- Convert a Lean string literal into the character-list model. -/
def chars (s : String) : Str := s.toList

/-- Python exceptions raised by the code paths under verification. -/
inductive PyErr where
  | keyError : PyErr
  | typeError : PyErr
  | attributeError : PyErr
deriving DecidableEq

/-- Model of the values produced by xmltodict.parse: ordered dictionaries,
lists, strings and None. -/
inductive XVal where
  | str : Str → XVal
  | node : List (Str × XVal) → XVal
  | list : List XVal → XVal
  | null : XVal

/-- Dictionary lookup on an ordered association list (Python `d[k]` / `d.get(k)`). -/
def lookupA (k : Str) : List (Str × XVal) → Option XVal
  | [] => none
  | (k', v) :: rest => if k' = k then some v else lookupA k rest

/-- Dictionary assignment `d[k] = v`: replaces the value in place if the key
exists (keeping its position), otherwise appends the new entry. -/
def setA (k : Str) (v : XVal) : List (Str × XVal) → List (Str × XVal)
  | [] => [(k, v)]
  | (k', v') :: rest => if k' = k then (k, v) :: rest else (k', v') :: setA k v rest

/-- Python truthiness of a parsed value (`if style:`): empty strings, empty
containers and None are falsy. -/
def pyTruthy : XVal → Bool
  | .str s => !s.isEmpty
  | .node l => !l.isEmpty
  | .list l => !l.isEmpty
  | .null => false

/-- Python `s.startswith(p)`, on the character-list model: `hasPre p s` is
true when `p` is an initial segment of `s`. -/
def hasPre : Str → Str → Bool
  | [], _ => true
  | _ :: _, [] => false
  | p :: ps, c :: cs => if p = c then hasPre ps cs else false

/-- Python `s.split(";")`: splits at every semicolon, keeping empty pieces,
and yields one (possibly empty) piece even for the empty string. -/
def splitSemi : Str → List Str
  | [] => [[]]
  | c :: rest =>
    if c = ';' then [] :: splitSemi rest
    else
      match splitSemi rest with
      | [] => [[c]]
      | p :: ps => (c :: p) :: ps

/-- Python `";".join(pieces)`. -/
def joinSemi : List Str → Str
  | [] => []
  | [s] => s
  | s :: s' :: rest => s ++ ';' :: joinSemi (s' :: rest)

/-- Effectful map over a list, mirroring a Python for-loop that may raise:
the first exception aborts the iteration. -/
def mapME (f : α → Except PyErr β) : List α → Except PyErr (List β)
  | [] => .ok []
  | x :: xs =>
    match f x with
    | .error e => .error e
    | .ok y =>
      match mapME f xs with
      | .error e => .error e
      | .ok ys => .ok (y :: ys)

/-- Worker for `pyReplace`, structurally recursive on a fuel argument so that
it reduces inside the kernel; the fuel is always at least the length of the
scanned string, so the fuel-exhaustion arm is never reached. -/
def pyReplaceFuel (old new : Str) : Nat → Str → Str
  | _, [] => []
  | 0, s => s
  | fuel + 1, c :: rest =>
    if hasPre old (c :: rest) then
      new ++ pyReplaceFuel old new fuel (List.drop (old.length - 1) rest)
    else c :: pyReplaceFuel old new fuel rest

/-- Python `s.replace(old, new)` for a non-empty `old`: scan left to right,
replace each leftmost occurrence and continue after the replaced segment
(replaced text is not rescanned). -/
def pyReplace (old new s : Str) : Str :=
  pyReplaceFuel old new s.length s

/-! ## The InstructionToSVG module (knittingpattern/convert/InstructionToSVG.py) -/

/-- The literal placeholder token REPLACE_IN_DEFAULT_SVG, i.e. the text
`\x7binstruction.type\x7d` (left brace, the letters instruction.type, right
brace). -/
def REPLACE_IN_DEFAULT_SVG : Str := chars "\x7binstruction.type\x7d"

/-- An instruction, consumed through its two read-only attributes. -/
structure Instruction where
  type : Str
  color : Option Str

/-- The field _instruction_type_to_file_content of an InstructionToSVG
object: a mapping from instruction-type names to raw template strings. -/
def Registry := Str → Option Str

/-- The registry update performed by _process_loaded_object: the path's base
name without extension becomes the key and the file's full text the value
(the file read and path manipulation are I/O and happen outside the model;
`name` and `content` are their results).  Assignment overwrites any prior
entry under the same key. -/
def _process_loaded_object (reg : Registry) (name content : Str) : Registry :=
  fun key => if key = name then some content else reg key

/-- The attribute key inkscape:label as seen by xmltodict. -/
def labelKey : Str := chars "@inkscape:label"

/-- The attribute key inkscape:groupmode as seen by xmltodict. -/
def groupmodeKey : Str := chars "@inkscape:groupmode"

/-- The attribute key style as seen by xmltodict. -/
def styleKey : Str := chars "@style"

/-- Whether an optional parsed value equals the given plain string, as in
Python `layer.get(k) == s`. -/
def isStrVal (v : Option XVal) (s : Str) : Bool :=
  match v with
  | some (.str t) => decide (t = s)
  | _ => false

/-- The test on a layer dictionary from _set_fills_in_color_layer:
`layer.get("@inkscape:label") == "color" and layer.get("@inkscape:groupmode")
== "layer"`. -/
def layerMatches (entries : List (Str × XVal)) : Bool :=
  isStrVal (lookupA labelKey entries) (chars "color") &&
  isStrVal (lookupA groupmodeKey entries) (chars "layer")

/-- `layerMatches` lifted to an arbitrary parsed value: non-dictionary layers
are skipped by the `isinstance(layer, dict)` guard, hence never match. -/
def layerMatchesV : XVal → Bool
  | .node entries => layerMatches entries
  | _ => false

/-- The per-declaration step of the style rewriting loop: `if
e.startswith("fill:"): e = "fill:" + color`. -/
def processDecl (color : Str) (e : Str) : Str :=
  if hasPre (chars "fill:") e then chars "fill:" ++ color else e

/-- The style rewriting of _set_fills_in_color_layer: split the style string
at semicolons, rewrite each declaration starting with `fill:`, and join the
pieces back with semicolons. -/
def rewriteStyle (color s : Str) : Str :=
  joinSemi ((splitSemi s).map (processDecl color))

/-- The body of the innermost loop of _set_fills_in_color_layer: read the
element's style attribute; if it is absent or falsy, leave the element alone;
if it is a truthy string, rewrite it and assign it back; a truthy non-string
raises (`.split` on a non-string), and a non-dictionary element raises
(`.get` on None, a string or a list). -/
def transformElement (color : Str) (element : XVal) : Except PyErr XVal :=
  match element with
  | .node entries =>
    match lookupA styleKey entries with
    | some v =>
      if pyTruthy v then
        match v with
        | .str s => .ok (.node (setA styleKey (.str (rewriteStyle color s)) entries))
        | _ => .error .attributeError
      else .ok (.node entries)
    | none => .ok (.node entries)
  | _ => .error .attributeError

/-- The `if not isinstance(elements, list): elements = [elements]`
normalization: a list value has each member transformed in place and keeps
its list shape, any other value is transformed as a singleton. -/
def transformElems (color : Str) (v : XVal) : Except PyErr XVal :=
  match v with
  | .list es =>
    match mapME (transformElement color) es with
    | .error e => .error e
    | .ok es' => .ok (.list es')
  | e => transformElement color e

/-- One entry of a matching layer dictionary: keys starting with `@` or `#`
are skipped, every other value is transformed. -/
def transformEntry (color : Str) (kv : Str × XVal) : Except PyErr (Str × XVal) :=
  match kv.1 with
  | '@' :: _ => .ok kv
  | '#' :: _ => .ok kv
  | _ =>
    match transformElems color kv.2 with
    | .error e => .error e
    | .ok v' => .ok (kv.1, v')

/-- The per-layer step of _set_fills_in_color_layer: non-dictionary layers
are skipped, a dictionary layer is transformed only when it carries the
label "color" and the groupmode "layer". -/
def transformLayer (color : Str) (layer : XVal) : Except PyErr XVal :=
  match layer with
  | .node entries =>
    if layerMatches entries then
      match mapME (transformEntry color) entries with
      | .error e => .error e
      | .ok entries' => .ok (.node entries')
    else .ok layer
  | _ => .ok layer

/-- The `if not isinstance(layers, list): layers = [layers]` normalization at
the layer level: a list of layers keeps its list shape with each member
transformed in place, any other value is handled as a singleton. -/
def transformG (color : Str) (gv : XVal) : Except PyErr XVal :=
  match gv with
  | .list layers =>
    match mapME (transformLayer color) layers with
    | .error e => .error e
    | .ok layers' => .ok (.list layers')
  | v => transformLayer color v

/-- The part of _set_fills_in_color_layer after xmltodict.parse when the
color is not None: `layers = structure["svg"]["g"]` (KeyError when a key is
absent, TypeError when a non-dictionary is subscripted), then the layer loop;
the dictionaries are mutated in place, so the result is the input with only
the value under svg / g rewritten. -/
def recolorParsed (struc : XVal) (color : Str) : Except PyErr XVal :=
  match struc with
  | .node tops =>
    match lookupA (chars "svg") tops with
    | some (.node svgEntries) =>
      match lookupA (chars "g") svgEntries with
      | some gv =>
        match transformG color gv with
        | .error e => .error e
        | .ok gv' =>
          .ok (.node (setA (chars "svg") (.node (setA (chars "g") gv' svgEntries)) tops))
      | none => .error .keyError
    | some _ => .error .typeError
    | none => .error .keyError
  | _ => .error .typeError

/-- The method _set_fills_in_color_layer: parse the svg string with the
external xmltodict parser, return the parsed structure unchanged when the
color is None, otherwise recolor the layer labeled "color". -/
def _set_fills_in_color_layer (parse : Str → XVal) (svg_string : Str)
    (color : Option Str) : Except PyErr XVal :=
  let struc := parse svg_string
  match color with
  | none => .ok struc
  | some c => recolorParsed struc c

/-- The method default_instruction_to_svg_dict: when no "default" template
is registered return the dictionary mapping "svg" to the empty string,
otherwise substitute the placeholder token by the instruction type in the
raw template text and recolor the parse of the substituted text. -/
def default_instruction_to_svg_dict (parse : Str → XVal) (reg : Registry)
    (instruction : Instruction) : Except PyErr XVal :=
  let instruction_type := instruction.type
  match reg (chars "default") with
  | none => .ok (.node [(chars "svg", .str [])])
  | some default_svg =>
    _set_fills_in_color_layer parse
      (pyReplace REPLACE_IN_DEFAULT_SVG instruction_type default_svg)
      instruction.color

/-- The method instruction_to_svg_dict: use the template registered for the
instruction's type when there is one, otherwise fall back to the default
path. -/
def instruction_to_svg_dict (parse : Str → XVal) (reg : Registry)
    (instruction : Instruction) : Except PyErr XVal :=
  match reg instruction.type with
  | some svg => _set_fills_in_color_layer parse svg instruction.color
  | none => default_instruction_to_svg_dict parse reg instruction

/-- The method has_svg_for_instruction. -/
def has_svg_for_instruction (reg : Registry) (instruction : Instruction) : Bool :=
  (reg instruction.type).isSome

/-- State-threaded form of default_instruction_to_svg_dict: the method reads
the registry twice and never writes it, so the registry passes through each
branch unchanged. -/
def default_instruction_to_svg_dict_st (parse : Str → XVal) (reg : Registry)
    (instruction : Instruction) : Except PyErr XVal × Registry :=
  match reg (chars "default") with
  | none => (.ok (.node [(chars "svg", .str [])]), reg)
  | some default_svg =>
    (_set_fills_in_color_layer parse
      (pyReplace REPLACE_IN_DEFAULT_SVG instruction.type default_svg)
      instruction.color, reg)

/-- State-threaded form of instruction_to_svg_dict: the lookup of the
instruction type reads the registry, and both branches thread it through
without writing. -/
def instruction_to_svg_dict_st (parse : Str → XVal) (reg : Registry)
    (instruction : Instruction) : Except PyErr XVal × Registry :=
  match reg instruction.type with
  | some svg => (_set_fills_in_color_layer parse svg instruction.color, reg)
  | none => default_instruction_to_svg_dict_st parse reg instruction

/-- The normalization `if not isinstance(layers, list): layers = [layers]`
seen as a view: the sequence of layers the loop of _set_fills_in_color_layer
iterates over. -/
def normLayers : XVal → List XVal
  | .list ls => ls
  | v => [v]

/-- Whether a parsed value is a list (Python `isinstance(x, list)`). -/
def isXList : XVal → Bool
  | .list _ => true
  | _ => false

/-- Whether the pattern `p` occurs as a contiguous segment of `s` (Python
`p in s`, for a non-empty `p`). -/
def hasOcc (p : Str) : Str → Bool
  | [] => false
  | c :: rest => hasPre p (c :: rest) || hasOcc p rest

/-- Sample group from the spec scenario: a layer labeled "color" of
groupmode "layer" holding a rectangle with a fill style. -/
def sampleColorLayer : XVal :=
  .node [(labelKey, .str (chars "color")), (groupmodeKey, .str (chars "layer")),
    (chars "rect", .node [(styleKey, .str (chars "fill:#ff0000;fill-opacity:1"))])]

/-- The sample layer after recoloring with "blue". -/
def sampleColorLayerBlue : XVal :=
  .node [(labelKey, .str (chars "color")), (groupmodeKey, .str (chars "layer")),
    (chars "rect", .node [(styleKey, .str (chars "fill:blue;fill-opacity:1"))])]

/-- Sample sibling group without the label/groupmode markers, holding an
element with the same fill style. -/
def samplePlainGroup : XVal :=
  .node [(chars "rect", .node [(styleKey, .str (chars "fill:#ff0000;fill-opacity:1"))])]

/-- Sample parsed template with the two sibling groups. -/
def sampleTree : XVal :=
  .node [(chars "svg", .node [(chars "g", .list [sampleColorLayer, samplePlainGroup])])]

/-- Concrete "default" template text with the token inside an attribute
value. -/
def tDefault : Str := chars "<svg n=\"" ++ REPLACE_IN_DEFAULT_SVG ++ chars "\"/>"

/-! ## Helper lemmas -/

theorem splitSemi_ne_nil (s : Str) : splitSemi s ≠ [] := by
  cases s with
  | nil => simp [splitSemi]
  | cons c rest =>
    simp only [splitSemi]
    split
    · simp
    · split <;> simp

theorem joinSemi_cons_cons (c : Char) (p : Str) (ps : List Str) :
    joinSemi ((c :: p) :: ps) = c :: joinSemi (p :: ps) := by
  cases ps <;> simp [joinSemi]

theorem joinSemi_splitSemi (s : Str) : joinSemi (splitSemi s) = s := by
  induction s with
  | nil => rfl
  | cons c rest ih =>
    simp only [splitSemi]
    by_cases hc : c = ';'
    · rw [if_pos hc]
      obtain ⟨p, ps, hps⟩ : ∃ p ps, splitSemi rest = p :: ps := by
        cases hsp : splitSemi rest with
        | nil => exact absurd hsp (splitSemi_ne_nil rest)
        | cons p ps => exact ⟨p, ps, rfl⟩
      rw [hps]
      show ';' :: joinSemi (p :: ps) = c :: rest
      rw [← hps, ih, hc]
    · rw [if_neg hc]
      obtain ⟨p, ps, hps⟩ : ∃ p ps, splitSemi rest = p :: ps := by
        cases hsp : splitSemi rest with
        | nil => exact absurd hsp (splitSemi_ne_nil rest)
        | cons p ps => exact ⟨p, ps, rfl⟩
      rw [hps, joinSemi_cons_cons, ← hps, ih]

theorem map_processDecl_id (color : Str) :
    ∀ ds : List Str, (∀ d ∈ ds, hasPre (chars "fill:") d = false) →
      ds.map (processDecl color) = ds := by
  intro ds h
  induction ds with
  | nil => rfl
  | cons d rest ih =>
    simp only [List.map_cons]
    rw [show processDecl color d = d from by
          simp [processDecl, h d (by simp)],
        ih (fun x hx => h x (by simp [hx]))]

theorem rewriteStyle_id (color s : Str)
    (h : ∀ d ∈ splitSemi s, hasPre (chars "fill:") d = false) :
    rewriteStyle color s = s := by
  rw [rewriteStyle, map_processDecl_id color _ h, joinSemi_splitSemi]

theorem setA_lookup_id (k : Str) (v : XVal) :
    ∀ l : List (Str × XVal), lookupA k l = some v → setA k v l = l := by
  intro l
  induction l with
  | nil => intro h; simp [lookupA] at h
  | cons kv rest ih =>
    intro h
    obtain ⟨k', v'⟩ := kv
    simp only [lookupA] at h
    simp only [setA]
    by_cases hk : k' = k
    · rw [if_pos hk] at h
      rw [if_pos hk]
      injection h with h
      rw [← h, hk]
    · rw [if_neg hk] at h
      rw [if_neg hk, ih h]

theorem mapME_ok_id {α : Type} (f : α → Except PyErr α) :
    ∀ l : List α, (∀ x ∈ l, f x = .ok x) → mapME f l = .ok l := by
  intro l
  induction l with
  | nil => intro _; rfl
  | cons x xs ih =>
    intro h
    simp only [mapME]
    rw [h x (by simp), ih (fun y hy => h y (by simp [hy]))]

theorem mapME_ok_get {α β : Type} (f : α → Except PyErr β) :
    ∀ (l : List α) (l2 : List β), mapME f l = .ok l2 →
      l2.length = l.length ∧
      ∀ i (h : i < l.length) (h2 : i < l2.length),
        f (l.get ⟨i, h⟩) = .ok (l2.get ⟨i, h2⟩) := by
  intro l
  induction l with
  | nil =>
    intro l2 h
    simp only [mapME] at h
    injection h with h
    rw [← h]
    exact ⟨rfl, fun i hi _ => absurd hi (by simp)⟩
  | cons x xs ih =>
    intro l2 h
    simp only [mapME] at h
    cases hfx : f x with
    | error e => rw [hfx] at h; simp at h
    | ok y =>
      rw [hfx] at h
      cases hxs : mapME f xs with
      | error e => rw [hxs] at h; simp at h
      | ok ys =>
        rw [hxs] at h
        injection h with h
        obtain ⟨hlen, hget⟩ := ih ys hxs
        rw [← h]
        refine ⟨by simp [hlen], ?_⟩
        intro i hi h2
        cases i with
        | zero => simpa using hfx
        | succ j => simpa using hget j (by simpa using hi) (by simpa using h2)

theorem hasPre_append (p s : Str) : hasPre p (p ++ s) = true := by
  induction p with
  | nil => rfl
  | cons c cs ih => simp [hasPre, ih]

theorem pyReplaceFuel_ge (old new : Str) :
    ∀ (fuel : Nat) (s : Str), s.length ≤ fuel →
      pyReplaceFuel old new fuel s = pyReplace old new s := by
  intro fuel
  induction fuel using Nat.strong_induction_on with
  | _ fuel ih =>
    intro s h
    cases s with
    | nil =>
      cases fuel with
      | zero => rfl
      | succ f => rfl
    | cons c rest =>
      cases fuel with
      | zero => simp at h
      | succ f =>
      simp only [List.length_cons] at h
      simp only [pyReplace, pyReplaceFuel, List.length_cons]
      by_cases hp : hasPre old (c :: rest) = true
      · rw [if_pos hp, if_pos hp]
        have hd : (List.drop (old.length - 1) rest).length ≤ rest.length := by
          simp [List.length_drop]
        rw [ih f (by omega) _ (le_trans hd (by omega)),
            ih rest.length (by omega) _ hd]
      · rw [if_neg hp, if_neg hp]
        rw [ih f (by omega) _ (by omega)]
        rfl

theorem pyReplace_cons_of_neg (old new : Str) (c : Char) (rest : Str)
    (h : hasPre old (c :: rest) = false) :
    pyReplace old new (c :: rest) = c :: pyReplace old new rest := by
  simp only [pyReplace, List.length_cons, pyReplaceFuel, h, if_false]
  rfl

theorem pyReplace_append_self (old new b : Str) (hold : old ≠ []) :
    pyReplace old new (old ++ b) = new ++ pyReplace old new b := by
  cases old with
  | nil => exact absurd rfl hold
  | cons o ot =>
    have hp := hasPre_append (o :: ot) b
    simp only [List.cons_append] at hp
    show pyReplaceFuel (o :: ot) new (o :: (ot ++ b)).length (o :: (ot ++ b)) = _
    simp only [List.length_cons, pyReplaceFuel, hp, if_true]
    congr 1
    simp only [List.length_cons, Nat.add_sub_cancel]
    rw [List.drop_left]
    exact pyReplaceFuel_ge _ _ _ _ (by simp)

theorem pyReplace_first_at (old new : Str) (hold : old ≠ []) :
    ∀ (a b : Str),
      (∀ i, i < a.length → hasPre old (List.drop i (a ++ old ++ b)) = false) →
      pyReplace old new (a ++ old ++ b) = a ++ new ++ pyReplace old new b := by
  intro a
  induction a with
  | nil => intro b _; simpa using pyReplace_append_self old new b hold
  | cons c arest ih =>
    intro b h
    have h0 := h 0 (by simp)
    simp only [List.drop_zero, List.cons_append] at h0
    simp only [List.cons_append]
    rw [pyReplace_cons_of_neg old new c _ h0]
    have hrec := ih b (fun i hi => by
      have := h (i + 1) (by simp only [List.length_cons]; omega)
      simpa [List.cons_append, List.drop_succ_cons] using this)
    simp only [List.cons_append] at hrec
    rw [hrec]

theorem transformLayer_skip (color : Str) (layer : XVal)
    (h : layerMatchesV layer = false) : transformLayer color layer = .ok layer := by
  cases layer <;> simp_all [transformLayer, layerMatchesV]

theorem transformG_id (color : Str) (gv : XVal)
    (h : ∀ layer ∈ normLayers gv, layerMatchesV layer = false) :
    transformG color gv = .ok gv := by
  cases gv with
  | list ls =>
    have : mapME (transformLayer color) ls = .ok ls :=
      mapME_ok_id _ ls (fun layer hm =>
        transformLayer_skip color layer (h layer (by simpa [normLayers] using hm)))
    simp [transformG, this]
  | node entries =>
    exact transformLayer_skip color (.node entries)
      (h (.node entries) (by simp [normLayers]))
  | str s =>
    exact transformLayer_skip color (.str s) (h (.str s) (by simp [normLayers]))
  | null => exact transformLayer_skip color .null (h .null (by simp [normLayers]))

theorem recolorParsed_eq (color : Str) (tops svgEntries : List (Str × XVal))
    (gv gv2 : XVal)
    (hsvg : lookupA (chars "svg") tops = some (.node svgEntries))
    (hg : lookupA (chars "g") svgEntries = some gv)
    (htr : transformG color gv = .ok gv2) :
    recolorParsed (.node tops) color =
      .ok (.node (setA (chars "svg") (.node (setA (chars "g") gv2 svgEntries)) tops)) := by
  simp only [recolorParsed, hsvg, hg, htr]

/-! ## Claim theorems -/

/-- C4: for every instruction whose type has no registered template, when no
entry is registered under the reserved key "default", both
instruction_to_svg_dict and default_instruction_to_svg_dict return the empty
document tree (a single top-level node mapping "svg" to an empty text value)
and never fail, regardless of the instruction's color. -/
theorem missingTemplatesGiveEmptySvg (parse : Str → XVal) (reg : Registry)
    (instruction : Instruction)
    (hty : reg instruction.type = none)
    (hdef : reg (chars "default") = none) :
    instruction_to_svg_dict parse reg instruction =
      .ok (.node [(chars "svg", .str [])]) ∧
    default_instruction_to_svg_dict parse reg instruction =
      .ok (.node [(chars "svg", .str [])]) := by
  refine ⟨?_, ?_⟩ <;>
    simp [instruction_to_svg_dict, default_instruction_to_svg_dict, hty, hdef]

/-- Witness for C4 on a concrete empty registry and a colored instruction. -/
theorem missingTemplatesGiveEmptySvgWitness :
    instruction_to_svg_dict (fun _ => .null) (fun _ => none)
        ⟨chars "knit", some (chars "red")⟩ =
      .ok (.node [(chars "svg", .str [])]) ∧
    default_instruction_to_svg_dict (fun _ => .null) (fun _ => none)
        ⟨chars "knit", some (chars "red")⟩ =
      .ok (.node [(chars "svg", .str [])]) :=
  missingTemplatesGiveEmptySvg (fun _ => .null) (fun _ => none)
    ⟨chars "knit", some (chars "red")⟩ rfl rfl

/-- C5: for every registered template and every instruction whose color is
absent, recoloring is skipped entirely and rendering returns the unmodified
parse of the registered template string; rendering being a function of the
registry and the instruction, rendering the same instruction twice therefore
produces identical trees. -/
theorem nullColorReturnsUnmodifiedParse (parse : Str → XVal) (reg : Registry)
    (instruction : Instruction) (t : Str)
    (hty : reg instruction.type = some t)
    (hcol : instruction.color = none) :
    instruction_to_svg_dict parse reg instruction = .ok (parse t) := by
  simp only [instruction_to_svg_dict, hty, _set_fills_in_color_layer, hcol]

/-- Witness for C5 on a concrete registry holding one template. -/
theorem nullColorReturnsUnmodifiedParseWitness :
    instruction_to_svg_dict (fun s => .str s)
        (fun k => if k = chars "knit" then some (chars "<svg/>") else none)
        ⟨chars "knit", none⟩ =
      .ok (.str (chars "<svg/>")) :=
  nullColorReturnsUnmodifiedParse (fun s => .str s)
    (fun k => if k = chars "knit" then some (chars "<svg/>") else none)
    ⟨chars "knit", none⟩ (chars "<svg/>") rfl rfl

/-- C8: registering content under a key that already has an entry overwrites
the prior value: after loading content a and then content b under the same
key, the registry holds only b under that key and rendering an instruction
of that type renders b; no merge of contents occurs. -/
theorem registryLastWriteWins (parse : Str → XVal) (reg : Registry)
    (k a b : Str) (instruction : Instruction)
    (hty : instruction.type = k) :
    _process_loaded_object (_process_loaded_object reg k a) k b k = some b ∧
    instruction_to_svg_dict parse
        (_process_loaded_object (_process_loaded_object reg k a) k b) instruction =
      _set_fills_in_color_layer parse b instruction.color := by
  constructor
  · simp [_process_loaded_object]
  · simp [instruction_to_svg_dict, _process_loaded_object, hty]

/-- Witness for C8 on a concrete registry: content "A" then content "B". -/
theorem registryLastWriteWinsWitness :
    _process_loaded_object
        (_process_loaded_object (fun _ => none) (chars "knit") (chars "A"))
        (chars "knit") (chars "B") (chars "knit") = some (chars "B") ∧
    instruction_to_svg_dict (fun s => .str s)
        (_process_loaded_object
          (_process_loaded_object (fun _ => none) (chars "knit") (chars "A"))
          (chars "knit") (chars "B"))
        ⟨chars "knit", none⟩ =
      _set_fills_in_color_layer (fun s => .str s) (chars "B") none :=
  registryLastWriteWins (fun s => .str s) (fun _ => none)
    (chars "knit") (chars "A") (chars "B") ⟨chars "knit", none⟩ rfl

/-- C9: rendering leaves the registry unchanged.  In the state-threaded model
of the two rendering methods every branch passes the registry through
untouched, the threaded result coincides with the pure rendering function,
and rendering again with the registry coming out of a render gives the same
result as the first render: each render re-parses the stored string and the
stored strings are immutable across renders. -/
theorem renderLeavesRegistryUnchanged (parse : Str → XVal) (reg : Registry)
    (instruction : Instruction) :
    (instruction_to_svg_dict_st parse reg instruction).2 = reg ∧
    (default_instruction_to_svg_dict_st parse reg instruction).2 = reg ∧
    (instruction_to_svg_dict_st parse reg instruction).1 =
      instruction_to_svg_dict parse reg instruction ∧
    instruction_to_svg_dict parse
        ((instruction_to_svg_dict_st parse reg instruction).2) instruction =
      instruction_to_svg_dict parse reg instruction := by
  cases hty : reg instruction.type <;>
    cases hdef : reg (chars "default") <;>
      simp [instruction_to_svg_dict_st, default_instruction_to_svg_dict_st,
        instruction_to_svg_dict, default_instruction_to_svg_dict, hty, hdef]

/-- C10: inside a matching color layer, an element whose style attribute is
present but equal to the empty string is left completely unchanged by the
recoloring loop, exactly like an element with no style attribute: no fill
declaration is added and the empty string is not rewritten. -/
theorem emptyStyleLeftUnchanged (color : Str)
    (entries entries2 : List (Str × XVal))
    (h : lookupA styleKey entries = some (.str []))
    (h2 : lookupA styleKey entries2 = none) :
    transformElement color (.node entries) = .ok (.node entries) ∧
    transformElement color (.node entries2) = .ok (.node entries2) := by
  constructor
  · simp [transformElement, h, pyTruthy]
  · simp [transformElement, h2]

/-- Witness for C10 on a concrete element with an empty style attribute and
one with no style attribute. -/
theorem emptyStyleLeftUnchangedWitness :
    transformElement (chars "blue") (.node [(styleKey, .str [])]) =
      .ok (.node [(styleKey, .str [])]) ∧
    transformElement (chars "blue") (.node [(chars "width", .str (chars "10"))]) =
      .ok (.node [(chars "width", .str (chars "10"))]) :=
  emptyStyleLeftUnchanged (chars "blue") [(styleKey, .str [])]
    [(chars "width", .str (chars "10"))] rfl rfl

/-- C1 counterexample: the parse of `<svg/>` is a tree whose root has no
direct child group at all, so no child group carries the label "color" and
the groupmode "layer"; yet the structural recolor with the non-null color
"blue" raises a TypeError (the subscript `structure["svg"]["g"]` hits a
non-dictionary) instead of returning the tree unmodified. -/
theorem noGroupChildRaisesTypeError :
    _set_fills_in_color_layer (fun _ => .node [(chars "svg", .null)])
        (chars "<svg/>") (some (chars "blue")) =
      .error .typeError := rfl

/-- C1 amended: for every parsed markup tree whose root "svg" node is a
dictionary that has a "g" child, and every non-null color, if no direct
child group carries both the label "color" and the groupmode "layer", the
structural recolor returns the tree unmodified and does not raise; without
such a "g" child the subscript `structure["svg"]["g"]` raises instead. -/
theorem noMatchingLayerLeavesTreeUnchanged (parse : Str → XVal)
    (svg_string color : Str) (tops svgEntries : List (Str × XVal)) (gv : XVal)
    (hparse : parse svg_string = .node tops)
    (hsvg : lookupA (chars "svg") tops = some (.node svgEntries))
    (hg : lookupA (chars "g") svgEntries = some gv)
    (hnm : ∀ layer ∈ normLayers gv, layerMatchesV layer = false) :
    _set_fills_in_color_layer parse svg_string (some color) =
      .ok (.node tops) := by
  simp only [_set_fills_in_color_layer, hparse]
  rw [recolorParsed_eq color tops svgEntries gv gv hsvg hg
      (transformG_id color gv hnm)]
  rw [setA_lookup_id _ _ _ hg, setA_lookup_id _ _ _ hsvg]

/-- Witness for the amended C1: a tree with one group lacking the groupmode
marker and one non-dictionary group entry is returned unchanged. -/
theorem noMatchingLayerLeavesTreeUnchangedWitness :
    _set_fills_in_color_layer
        (fun _ => .node [(chars "svg", .node [(chars "g",
          .list [.node [(labelKey, .str (chars "color"))], .null])])])
        (chars "x") (some (chars "blue")) =
      .ok (.node [(chars "svg", .node [(chars "g",
        .list [.node [(labelKey, .str (chars "color"))], .null])])]) :=
  noMatchingLayerLeavesTreeUnchanged
    (fun _ => .node [(chars "svg", .node [(chars "g",
      .list [.node [(labelKey, .str (chars "color"))], .null])])])
    (chars "x") (chars "blue")
    [(chars "svg", .node [(chars "g",
      .list [.node [(labelKey, .str (chars "color"))], .null])])]
    [(chars "g", .list [.node [(labelKey, .str (chars "color"))], .null])]
    (.list [.node [(labelKey, .str (chars "color"))], .null])
    rfl rfl rfl (by decide)

/-- C2: for every parsed template on which the recolor succeeds and every
non-null color, the only value rewritten is the one under svg / g; a layer
that does not carry both markers is passed through by the layer loop exactly
unchanged, and inside a list of sibling groups every non-matching member,
whatever style declarations its elements carry, is returned at its position
exactly unchanged. -/
theorem recolorScopedToColorLayer (parse : Str → XVal)
    (svg_string color : Str) (tops svgEntries : List (Str × XVal))
    (gv gv2 : XVal)
    (hparse : parse svg_string = .node tops)
    (hsvg : lookupA (chars "svg") tops = some (.node svgEntries))
    (hg : lookupA (chars "g") svgEntries = some gv)
    (htr : transformG color gv = .ok gv2) :
    _set_fills_in_color_layer parse svg_string (some color) =
      .ok (.node (setA (chars "svg")
        (.node (setA (chars "g") gv2 svgEntries)) tops)) ∧
    (∀ layer, layerMatchesV layer = false →
      transformLayer color layer = .ok layer) ∧
    (∀ ls, gv = .list ls → ∃ ls2, gv2 = .list ls2 ∧ ls2.length = ls.length ∧
      ∀ i (h : i < ls.length) (h2 : i < ls2.length),
        layerMatchesV (ls.get ⟨i, h⟩) = false →
        ls2.get ⟨i, h2⟩ = ls.get ⟨i, h⟩) := by
  refine ⟨?_, fun layer hl => transformLayer_skip color layer hl, ?_⟩
  · simp only [_set_fills_in_color_layer, hparse]
    exact recolorParsed_eq color tops svgEntries gv gv2 hsvg hg htr
  · intro ls hls
    subst hls
    simp only [transformG] at htr
    cases hm : mapME (transformLayer color) ls with
    | error e => rw [hm] at htr; simp at htr
    | ok ls2 =>
      rw [hm] at htr
      injection htr with htr
      refine ⟨ls2, htr.symm, ?_, ?_⟩
      · exact (mapME_ok_get _ ls ls2 hm).1
      · intro i h h2 hskip
        have := (mapME_ok_get _ ls ls2 hm).2 i h h2
        rw [transformLayer_skip color _ hskip] at this
        injection this with this
        exact this.symm

/-- Witness for C2: the spec's P3 scenario, two sibling groups with the same
fill style, one labeled color/layer and one unlabeled; recoloring with
"blue" rewrites only the labeled group's element. -/
theorem recolorScopedToColorLayerWitness :
    _set_fills_in_color_layer (fun _ => sampleTree) (chars "x")
        (some (chars "blue")) =
      .ok (.node [(chars "svg", .node [(chars "g",
        .list [sampleColorLayerBlue, samplePlainGroup])])]) :=
  (recolorScopedToColorLayer (fun _ => sampleTree) (chars "x") (chars "blue")
    [(chars "svg", .node [(chars "g",
      .list [sampleColorLayer, samplePlainGroup])])]
    [(chars "g", .list [sampleColorLayer, samplePlainGroup])]
    (.list [sampleColorLayer, samplePlainGroup])
    (.list [sampleColorLayerBlue, samplePlainGroup])
    rfl rfl rfl rfl).1

/-- C3: for every non-null color and every style string, the rewriting splits
at semicolons and rejoins the processed declarations; the processed list has
the same length (empty declarations from consecutive semicolons are kept);
each declaration that begins with `fill:` (a declaration whose key is fill,
with the colon present) is rewritten independently at its position to
`fill:` followed by the color, and every other declaration is kept with its
value at its position; when no declaration begins with `fill:` the style
string is returned unchanged and the element keeps its style attribute
exactly, with no fill declaration appended. -/
theorem fillDeclarationsRewritten (color s : Str) (ds : List Str)
    (hds : ds = splitSemi s) :
    rewriteStyle color s = joinSemi (ds.map (processDecl color)) ∧
    (ds.map (processDecl color)).length = ds.length ∧
    (∀ i (h : i < ds.length) (h2 : i < (ds.map (processDecl color)).length),
      (hasPre (chars "fill:") (ds.get ⟨i, h⟩) = true →
        (ds.map (processDecl color)).get ⟨i, h2⟩ = chars "fill:" ++ color) ∧
      (hasPre (chars "fill:") (ds.get ⟨i, h⟩) = false →
        (ds.map (processDecl color)).get ⟨i, h2⟩ = ds.get ⟨i, h⟩)) ∧
    ((∀ d ∈ ds, hasPre (chars "fill:") d = false) → rewriteStyle color s = s) ∧
    (∀ entries, lookupA styleKey entries = some (.str s) →
      (∀ d ∈ ds, hasPre (chars "fill:") d = false) →
      transformElement color (.node entries) = .ok (.node entries)) := by
  subst hds
  refine ⟨rfl, by simp, ?_, ?_, ?_⟩
  · intro i h h2
    have hm : (List.map (processDecl color) (splitSemi s)).get ⟨i, h2⟩ =
        processDecl color ((splitSemi s).get ⟨i, h⟩) := by
      simp [List.get_eq_getElem, List.getElem_map]
    constructor <;> intro hf <;> rw [hm] <;>
      simp only [List.get_eq_getElem] at hf <;> simp [processDecl, hf]
  · intro hnf
    exact rewriteStyle_id color s hnf
  · intro entries hlook hnf
    by_cases hs : s = []
    · subst hs
      simp [transformElement, hlook, pyTruthy]
    · have ht : pyTruthy (.str s) = true := by simp [pyTruthy, hs]
      simp only [transformElement, hlook, ht, if_true]
      rw [rewriteStyle_id color s hnf, setA_lookup_id _ _ _ hlook]

/-- Witness for C3: a style with declarations, empty entries and no fill
declaration round-trips unchanged. -/
theorem fillDeclarationsRewrittenWitness :
    rewriteStyle (chars "blue") (chars "stroke:#000;;opacity:1") =
      chars "stroke:#000;;opacity:1" :=
  (fillDeclarationsRewritten (chars "blue") (chars "stroke:#000;;opacity:1")
    _ rfl).2.2.2.1 (by decide)

/-- C6 counterexample: with the "default" template being exactly the literal
placeholder token and an instruction whose type is that same token, the
substituted text passed on to parsing is the token itself, so a literal
token remains after the substitution, contradicting the claim that no
literal token remains for every instruction. -/
theorem tokenCanRemainAfterSubstitution :
    default_instruction_to_svg_dict (fun s => .str s)
        (fun k => if k = chars "default" then some REPLACE_IN_DEFAULT_SVG
          else none)
        ⟨REPLACE_IN_DEFAULT_SVG, none⟩ =
      .ok (.str REPLACE_IN_DEFAULT_SVG) ∧
    hasOcc REPLACE_IN_DEFAULT_SVG REPLACE_IN_DEFAULT_SVG = true :=
  ⟨rfl, by decide⟩

/-- C6 amended: the default rendering path substitutes the literal
placeholder token in the raw "default" template text by instruction.type
(scanning left to right, replacing each leftmost occurrence without
rescanning the replaced text, also inside attribute values) and then parses
the substituted text and applies the structural recolor with
instruction.color; in particular the occurrence after any token-free prefix
is replaced.  A literal token can remain only when instruction.type itself
contains or recreates the token. -/
theorem defaultPathSubstitutesToken (parse : Str → XVal) (reg : Registry)
    (instruction : Instruction) (t a b : Str)
    (hreg : reg (chars "default") = some t)
    (hsplit : t = a ++ REPLACE_IN_DEFAULT_SVG ++ b)
    (hfirst : ∀ i, i < a.length →
      hasPre REPLACE_IN_DEFAULT_SVG (List.drop i t) = false) :
    default_instruction_to_svg_dict parse reg instruction =
      _set_fills_in_color_layer parse
        (pyReplace REPLACE_IN_DEFAULT_SVG instruction.type t)
        instruction.color ∧
    pyReplace REPLACE_IN_DEFAULT_SVG instruction.type t =
      a ++ instruction.type ++
        pyReplace REPLACE_IN_DEFAULT_SVG instruction.type b := by
  constructor
  · simp only [default_instruction_to_svg_dict, hreg]
  · subst hsplit
    exact pyReplace_first_at REPLACE_IN_DEFAULT_SVG instruction.type
      (by decide) a b hfirst

/-- Witness for the amended C6: rendering an instruction of type "knit"
substitutes the token inside the attribute value. -/
theorem defaultPathSubstitutesTokenWitness :
    pyReplace REPLACE_IN_DEFAULT_SVG (chars "knit") tDefault =
      chars "<svg n=\"" ++ chars "knit" ++
        pyReplace REPLACE_IN_DEFAULT_SVG (chars "knit") (chars "\"/>") :=
  (defaultPathSubstitutesToken (fun s => .str s)
    (fun k => if k = chars "default" then some tDefault else none)
    ⟨chars "knit", none⟩ tDefault (chars "<svg n=\"") (chars "\"/>")
    rfl rfl (by decide)).2

/-- C7: for every non-null color, a matching layer presented as a single
node and the same layer presented as a one-element list are handled
identically, both at the layer-collection level (the whole recolor yields
the correspondingly shaped result with the same transformed layer) and for
the child element sets inside a layer: a single element and the one-element
list of it are transformed to the same result, wrapped in the original
shape. -/
theorem singletonAndListHandledAlike (color : Str) (L L2 E E2 : XVal)
    (hL : transformLayer color L = .ok L2) (hLn : isXList L = false)
    (hE : transformElement color E = .ok E2) (hEn : isXList E = false) :
    recolorParsed (.node [(chars "svg", .node [(chars "g", L)])]) color =
      .ok (.node [(chars "svg", .node [(chars "g", L2)])]) ∧
    recolorParsed (.node [(chars "svg", .node [(chars "g", .list [L])])])
        color =
      .ok (.node [(chars "svg", .node [(chars "g", .list [L2])])]) ∧
    transformG color L = .ok L2 ∧
    transformG color (.list [L]) = .ok (.list [L2]) ∧
    transformElems color E = .ok E2 ∧
    transformElems color (.list [E]) = .ok (.list [E2]) := by
  have hG : transformG color L = .ok L2 := by
    cases L <;> simp_all [transformG, isXList]
  have hGl : transformG color (.list [L]) = .ok (.list [L2]) := by
    simp [transformG, mapME, hL]
  have hee : transformElems color E = .ok E2 := by
    cases E <;> simp_all [transformElems, isXList]
  have heel : transformElems color (.list [E]) = .ok (.list [E2]) := by
    simp [transformElems, mapME, hE]
  refine ⟨?_, ?_, hG, hGl, hee, heel⟩
  · rw [recolorParsed_eq color _ [(chars "g", L)] L L2
      (by simp [lookupA]) (by simp [lookupA]) hG]
    simp [setA]
  · rw [recolorParsed_eq color _ [(chars "g", .list [L])] (.list [L])
      (.list [L2]) (by simp [lookupA]) (by simp [lookupA]) hGl]
    simp [setA]

/-- Witness for C7: the sample color layer as a singleton under the "g" key
is recolored exactly as its one-element list presentation. -/
theorem singletonAndListHandledAlikeWitness :
    recolorParsed (.node [(chars "svg",
        .node [(chars "g", sampleColorLayer)])]) (chars "blue") =
      .ok (.node [(chars "svg", .node [(chars "g", sampleColorLayerBlue)])]) ∧
    recolorParsed (.node [(chars "svg",
        .node [(chars "g", .list [sampleColorLayer])])]) (chars "blue") =
      .ok (.node [(chars "svg",
        .node [(chars "g", .list [sampleColorLayerBlue])])]) :=
  ⟨(singletonAndListHandledAlike (chars "blue") sampleColorLayer
      sampleColorLayerBlue
      (.node [(styleKey, .str (chars "fill:#ff0000;fill-opacity:1"))])
      (.node [(styleKey, .str (chars "fill:blue;fill-opacity:1"))])
      rfl rfl rfl rfl).1,
   (singletonAndListHandledAlike (chars "blue") sampleColorLayer
      sampleColorLayerBlue
      (.node [(styleKey, .str (chars "fill:#ff0000;fill-opacity:1"))])
      (.node [(styleKey, .str (chars "fill:blue;fill-opacity:1"))])
      rfl rfl rfl rfl).2.1⟩
